import Mathlib

/-!
Verification of the py2origin conversion helpers, shallowly embedded from
src/py2origin/__init__.py: the matplotlib-to-Origin style translator, the
column-index assignment and error-bar arithmetic of matplotlib_to_origin,
the array exporter numpy_to_origin, the multi-worksheet graph builder
createGraph_multiwks, and the workbook resolution helper
get_sheets_from_book.
-/

namespace Py2Origin

/-- The marker-shape translation table mpl_sym_conv of matplotlib_to_origin:
matplotlib single-character marker codes mapped to Origin symbol-type codes. -/
def mpl_sym_conv : List (String × String) :=
  [("s", "1"), ("o", "2"), ("^", "3"), ("v", "4"), ("D", "5"), ("+", "6"),
   ("x", "7"), ("*", "8"), ("_", "9"), ("|", "10"), ("h", "17"), ("p", "19")]

/-- The dash-pattern translation table mpl_line_conv of matplotlib_to_origin. -/
def mpl_line_conv : List (String × String) :=
  [("-", "0"), ("--", "1"), (":", "2"), ("-.", "3")]

/-- Python d.get(key, dflt) on a string-keyed dict: the stored value when the
key is present, the supplied default otherwise. -/
def dictGet (d : List (String × String)) (key dflt : String) : String :=
  match d.find? (fun p => p.1 = key) with
  | some p => p.2
  | none => dflt

/-- Python d[key] on a string-keyed dict: some value when the key is present;
none models the KeyError raised when it is absent. -/
def dictItem (d : List (String × String)) (key : String) : Option String :=
  (d.find? (fun p => p.1 = key)).map (fun p => p.2)

/-- The symbol-type code computed in the symbol-only branch of
matplotlib_to_origin: mpl_sym_conv.get(marker, with default code 0). -/
def symbolCodeSymbolOnly (marker : String) : String :=
  dictGet mpl_sym_conv marker "0"

/-- The symbol-type code computed in the line-plus-symbol branch of
matplotlib_to_origin: mpl_sym_conv[marker], direct indexing with no
default, so an absent marker raises KeyError (none). -/
def symbolCodeLineSymbol (marker : String) : Option String :=
  dictItem mpl_sym_conv marker

/-- The style classification of matplotlib_to_origin: the destination plot
type chosen from the marker and linestyle attributes of the source line
(l = line plot, s = scatter plot, y = line plus symbols). -/
def classify (marker linestyle : String) : String :=
  if marker = "None" then "l"
  else if linestyle = "None" then "s"
  else "y"

/-- The kinds of entry the series loop of matplotlib_to_origin visits: a plain
line (container None), an error-bar container, or an unknown container,
which is skipped with a warning. -/
inductive SeriesKind where
  | plain : SeriesKind
  | errorbar : SeriesKind
  | unknown : SeriesKind
deriving DecidableEq

/-- The column indices one series consumes when next_idx = n: a plain line
takes (x, y) = (n, n + 1), an error-bar group takes (x, y, yerr) =
(n, n + 1, n + 2), an unknown container consumes none. -/
def seriesCols : SeriesKind → Nat → List Nat
  | .plain, n => [n, n + 1]
  | .errorbar, n => [n, n + 1, n + 2]
  | .unknown, _ => []

/-- How far next_idx advances past one series. -/
def seriesStep : SeriesKind → Nat
  | .plain => 2
  | .errorbar => 3
  | .unknown => 0

/-- The per-series column-index assignment of the loop of
matplotlib_to_origin, starting from next_idx = n. -/
def assignCols (n : Nat) : List SeriesKind → List (List Nat)
  | [] => []
  | k :: ks => seriesCols k n :: assignCols (n + seriesStep k) ks

/-- The total number of columns a series list consumes. -/
def totalCols (ks : List SeriesKind) : Nat :=
  (ks.map seriesStep).sum

/-- The symmetric y-error magnitude matplotlib_to_origin computes for an
error-bar container: (yerrudata - yerrldata) / 2 elementwise over the
lower and upper cap lines. -/
def yerrData (yerrldata yerrudata : List ℚ) : List ℚ :=
  List.zipWith (fun l u => (u - l) / 2) yerrldata yerrudata

/-- Python str.lower(), modelled characterwise; it agrees with Python on the
ASCII strings the semantic-type vocabulary consists of. -/
def pyLower (s : String) : String :=
  ⟨s.data.map Char.toLower⟩

/-- The semantic-type translation table type_str_to_int of numpy_to_origin. -/
def type_str_to_int : List (String × Nat) :=
  [("x", 3), ("y", 0), ("x_err", 6), ("y_err", 2), ("label", 4), ("z", 5), ("ignore", 1)]

/-- The column-type lookup type_str_to_int[s.lower()] of numpy_to_origin:
none models the KeyError raised on a string outside the vocabulary. -/
def lookupColType (s : String) : Option Nat :=
  (type_str_to_int.find? (fun p => p.1 = pyLower s)).map (fun p => p.2)

/-- A numpy array as numpy_to_origin reads it: its number of dimensions, its
shape, its row-major 2-D contents (consulted when ndim = 2) and its flat
1-D contents (consulted when ndim = 1). -/
structure NdArray where
  ndim : Nat
  shape : List Nat
  rows : List (List ℚ)
  flat : List ℚ

/-- One remote write call numpy_to_origin performs against the destination
session, workbook, worksheet or column. -/
inductive WriteCall where
  | createPage (name : String) : WriteCall
  | addLayer : WriteCall
  | setSheetName (s : String) : WriteCall
  | setCols (n : Nat) : WriteCall
  | setLongName (col : Nat) (s : String) : WriteCall
  | setUnits (col : Nat) (s : String) : WriteCall
  | setComments (col : Nat) (s : String) : WriteCall
  | setColType (col : Nat) (t : Nat) : WriteCall
  | putWorksheet (col : Nat) (data : List ℚ) : WriteCall
  | userParam (row : Nat) (key val : String) : WriteCall
  | setColWidth : WriteCall
deriving DecidableEq

/-- data_array.shape[column_axis]: the Cols assignment and loop bound of
numpy_to_origin. -/
def ncols (data_array : NdArray) (column_axis : Nat) : Nat :=
  data_array.shape.getD column_axis 0

/-- One guarded header-row assignment of the per-column loop: written only
when the metadata list is supplied and longer than the column index. -/
def metaPart (mk : Nat → String → WriteCall) (vals : Option (List String))
    (col : Nat) : List WriteCall :=
  match vals with
  | some vs => if col < vs.length then [mk col (vs.getD col "")] else []
  | none => []

/-- The long-name, units and comments assignments the loop body performs for
one column of numpy_to_origin, in source order. -/
def metaStep (long_names units comments : Option (List String)) (col : Nat) :
    List WriteCall :=
  metaPart WriteCall.setLongName long_names col ++
    metaPart WriteCall.setUnits units col ++
    metaPart WriteCall.setComments comments col

/-- The column-type assignment of the loop body: the write it performs, and
the KeyError the lookup raises on an unrecognized type string (raised
while evaluating the right-hand side, so no write happens then). -/
def typeStep (types : Option (List String)) (col : Nat) :
    List WriteCall × Option String :=
  match types with
  | none => ([], none)
  | some ts =>
    if col < ts.length then
      match lookupColType (ts.getD col "") with
      | some t => ([WriteCall.setColType col t], none)
      | none => ([], some ("KeyError: " ++ pyLower (ts.getD col "")))
    else ([], none)

/-- The data write (or the unsupported-dimensionality console message) the
loop body performs for one column: the dimensionality check of
numpy_to_origin sits inside the per-column loop. -/
def dataStep (data_array : NdArray) (column_axis : Nat) (col : Nat) :
    List WriteCall × List String :=
  if data_array.ndim = 2 then
    if column_axis = 0 then
      ([WriteCall.putWorksheet col (data_array.rows.getD col [])], [])
    else if column_axis = 1 then
      ([WriteCall.putWorksheet col (data_array.rows.map (fun r => r.getD col 0))], [])
    else ([], [])
  else if data_array.ndim = 1 then
    ([WriteCall.putWorksheet col [data_array.flat.getD col 0]], [])
  else
    ([], ["only 1 and 2 dimensional arrays supported"])

/-- The per-column loop of numpy_to_origin from column col with rem columns
left: the writes it performs, the console messages it prints, and the
first uncaught error, at which the loop aborts. -/
def colLoop (data_array : NdArray) (column_axis : Nat)
    (types long_names units comments : Option (List String)) :
    Nat → Nat → List WriteCall × List String × Option String
  | _, 0 => ([], [], none)
  | col, rem + 1 =>
    let m := metaStep long_names units comments col
    let t := typeStep types col
    match t.2 with
    | some e => (m ++ t.1, [], some e)
    | none =>
      let d := dataStep data_array column_axis col
      let rest := colLoop data_array column_axis types long_names units comments
        (col + 1) rem
      (m ++ t.1 ++ d.1 ++ rest.1, d.2 ++ rest.2.1, rest.2.2)

/-- The user-parameter rows written after the column data is complete, plus
the closing column-width command. -/
def userWrites (user_defined : Option (List (String × String))) : List WriteCall :=
  match user_defined with
  | none => []
  | some ps =>
      (ps.enum.map (fun q => WriteCall.userParam (q.1 + 1) q.2.1 q.2.2)) ++
        [WriteCall.setColWidth]

/-- The outcome of one numpy_to_origin call: the open workbooks afterwards
(each name with its worksheet count), the worksheet index written to, the
write trace, the console messages, and the first uncaught error. -/
structure ExportRun where
  books : List (String × Nat)
  layer_idx : Nat
  writes : List WriteCall
  msgs : List String
  err : Option String
deriving DecidableEq

/-- numpy_to_origin over a session whose open workbooks are books: if the
named workbook is absent, CreatePage makes it with one sheet and
layer_idx stays 0 (the fresh Sheet1 is reused); if present, Layers.Add
appends a sheet and layer_idx becomes the new last index. Then the sheet
is renamed, its column count set, the per-column loop run, and the
user-defined parameter rows written; an error aborts the remaining
writes and propagates. -/
def numpy_to_origin (books : List (String × Nat))
    (workbook_name worksheet_name : String)
    (data_array : NdArray) (column_axis : Nat)
    (types long_names units comments : Option (List String))
    (user_defined : Option (List (String × String))) : ExportRun :=
  let n := ncols data_array column_axis
  let loop := colLoop data_array column_axis types long_names units comments 0 n
  let tailW : List WriteCall :=
    match loop.2.2 with
    | some _ => []
    | none => userWrites user_defined
  match books.find? (fun b => b.1 = workbook_name) with
  | none =>
      { books := books ++ [(workbook_name, 1)]
        layer_idx := 0
        writes := WriteCall.createPage workbook_name ::
          WriteCall.setSheetName worksheet_name :: WriteCall.setCols n ::
          (loop.1 ++ tailW)
        msgs := loop.2.1
        err := loop.2.2 }
  | some b =>
      { books := books.map (fun p => if p.1 = workbook_name then (p.1, p.2 + 1) else p)
        layer_idx := b.2
        writes := WriteCall.addLayer ::
          WriteCall.setSheetName worksheet_name :: WriteCall.setCols n ::
          (loop.1 ++ tailW)
        msgs := loop.2.1
        err := loop.2.2 }

/-- The plot-type code createGraph_multiwks passes to AddPlot for one
LineOrSym entry: 201 (symbol) for the three symbol spellings, 202
(symbol plus line) for Line+Sym, and 200 (line) otherwise. -/
def lineOrSymCode (s : String) : Nat :=
  if s = "Sym" ∨ s = "Symbol" ∨ s = "Symbols" then 201
  else if s = "Line+Sym" then 202
  else 200

/-- One plot on the destination graph layer: the worksheet index wi, the x
and y column indices of its data range, and the AddPlot type code. -/
structure PlotEntry where
  wsIdx : Nat
  xcol : Nat
  ycol : Nat
  ptype : Nat
deriving DecidableEq

/-- The destination graph layer as createGraph_multiwks mutates it: the
ordered plot collection AddPlot appends to, and the grouping commands
issued so far, each the 1-based (BeginIndex, EndIndex) pair of one
layer -g command. -/
structure GraphLayerState where
  plots : List PlotEntry
  groupCmds : List (Nat × Nat)
deriving DecidableEq

/-- The body of the outer loop of createGraph_multiwks at column-choice
position ci: one AddPlot per worksheet (wi enumerates the worksheets, W
of them), then one grouping command over BeginIndex = ci * W + 1 ..
EndIndex = BeginIndex + W - 1. -/
def addColumnPlots (W : Nat) (x_col y_col : Nat) (kind : String) (ci : Nat)
    (st : GraphLayerState) : GraphLayerState :=
  { plots := st.plots ++
      (List.range W).map (fun wi => ⟨wi, x_col, y_col, lineOrSymCode kind⟩)
    groupCmds := st.groupCmds ++ [(ci * W + 1, ci * W + 1 + W - 1)] }

/-- The outer loop of createGraph_multiwks over the enumerated
(x-column, y-column, plot-kind) choices, starting at position ci, run
against the graph layer state st the destination already holds. -/
def columnLoop (W : Nat) : Nat → List (Nat × Nat × String) → GraphLayerState →
    GraphLayerState
  | _, [], st => st
  | ci, c :: rest, st =>
      columnLoop W (ci + 1) rest (addColumnPlots W c.1 c.2.1 c.2.2 ci st)

/-- One command createGraph_multiwks sends to the destination graph after
the plot loop. -/
inductive GraphEffect where
  | legendCmd : GraphEffect
  | axisType (axis : String) (code : Nat) : GraphEffect
  | axisNumFormat (axis : String) (code : Nat) : GraphEffect
  | axisLabel (axis : String) (text : String) : GraphEffect
  | rescaleCmd : GraphEffect
  | setPageSize (w h : ℚ) : GraphEffect
deriving DecidableEq

/-- set_axis_scale: the axis-type and number-format commands sent for a
linear or log scale; any other value (None included) sends nothing. -/
def set_axis_scale (axis : String) : Option String → List GraphEffect
  | some s =>
      if s = "linear" then [GraphEffect.axisType axis 0, GraphEffect.axisNumFormat axis 1]
      else if s = "log" then [GraphEffect.axisType axis 2, GraphEffect.axisNumFormat axis 2]
      else []
  | none => []

/-- The optional axis-label command of createGraph_multiwks. -/
def labelCmd (axis : String) : Option String → List GraphEffect
  | some s => [GraphEffect.axisLabel axis s]
  | none => []

/-- The outcome of one createGraph_multiwks call: the graph layer after the
plot loop, the commands sent after it in order, the error raised, and
the returned graph name (none when an error aborts the call). When
figsize is not None, the final page resize reads the name graph_page,
which is bound nowhere in the function (the layer variable is
graph_layer), so Python raises NameError there: after every earlier
effect and before any page resize. -/
structure MultiwksRun where
  layer : GraphLayerState
  post : List GraphEffect
  err : Option String
  ret : Option String
deriving DecidableEq

/-- createGraph_multiwks after its input normalization, over the worksheet
count W, the normalized (x-column, y-column, plot-kind) choices, and the
graph layer state the found-or-created graph already holds. -/
def createGraph_multiwks (graph_name : String) (init : GraphLayerState)
    (W : Nat) (cols : List (Nat × Nat × String)) (auto_rescale : Bool)
    (x_scale y_scale x_label y_label : Option String)
    (figsize : Option (ℚ × ℚ)) : MultiwksRun :=
  let layer := columnLoop W 0 cols init
  let post :=
    [GraphEffect.legendCmd] ++ set_axis_scale "x" x_scale ++
      set_axis_scale "y" y_scale ++ labelCmd "x" x_label ++
      labelCmd "y" y_label ++
      (if auto_rescale then [GraphEffect.rescaleCmd] else [])
  match figsize with
  | some _ =>
      { layer := layer, post := post
        err := some "NameError: name graph_page is not defined", ret := none }
  | none => { layer := layer, post := post, err := none, ret := some graph_name }

/-- A workbook reference as get_sheets_from_book receives one: a live COM
workbook object (carrying its worksheets) or a workbook-name string. -/
inductive WbRef where
  | obj (sheets : List String) : WbRef
  | name (s : String) : WbRef

/-- get_sheets_from_book over the session's open workbooks (each name with
its worksheet list): a COM workbook object is used as is and its sheets
collected; for a workbook-name string the source evaluates
origin.WorksheetPages(workbook_name), but workbook_name is bound nowhere
in the function (the parameter is workbooks, the loop variable wb), so
Python raises NameError before any lookup happens. -/
def get_sheets_from_book (open_books : List (String × List String)) :
    List WbRef → Except String (List String)
  | [] => Except.ok []
  | r :: rest =>
    match r with
    | WbRef.obj sheets =>
      match get_sheets_from_book open_books rest with
      | Except.ok acc => Except.ok (sheets ++ acc)
      | Except.error e => Except.error e
    | WbRef.name _ => Except.error "NameError: name workbook_name is not defined"

theorem assignCols_flatten (n : Nat) (ks : List SeriesKind) :
    (assignCols n ks).flatten = List.range' n (totalCols ks) := by
  induction ks generalizing n with
  | nil => simp [assignCols, totalCols]
  | cons k ks ih =>
    have hsum : totalCols (k :: ks) = seriesStep k + totalCols ks := by
      simp [totalCols]
    cases k
    · show (seriesCols .plain n :: assignCols (n + 2) ks).flatten = _
      rw [hsum]
      show seriesCols .plain n ++ (assignCols (n + 2) ks).flatten = _
      rw [ih]
      show [n, n + 1] ++ List.range' (n + 2) (totalCols ks) = _
      simp only [seriesStep]
      rw [show (2 : Nat) + totalCols ks = totalCols ks + 1 + 1 by omega,
        List.range'_succ, List.range'_succ]
      simp [Nat.add_assoc]
    · show (seriesCols .errorbar n :: assignCols (n + 3) ks).flatten = _
      rw [hsum]
      show seriesCols .errorbar n ++ (assignCols (n + 3) ks).flatten = _
      rw [ih]
      show [n, n + 1, n + 2] ++ List.range' (n + 3) (totalCols ks) = _
      simp only [seriesStep]
      rw [show (3 : Nat) + totalCols ks = totalCols ks + 1 + 1 + 1 by omega,
        List.range'_succ, List.range'_succ, List.range'_succ]
      simp [Nat.add_assoc]
    · show (seriesCols .unknown n :: assignCols (n + 0) ks).flatten = _
      rw [hsum]
      show seriesCols .unknown n ++ (assignCols (n + 0) ks).flatten = _
      rw [ih]
      simp [seriesCols, seriesStep]

/-- C2: matplotlib_to_origin classifies every series into exactly one of the
three plot kinds by the rule: marker equal to None gives the line-only
type l; otherwise linestyle equal to None gives the symbol-only type s;
otherwise (both present) the combined type y. -/
theorem classify_three_kinds (marker linestyle : String) :
    (marker = "None" → classify marker linestyle = "l") ∧
    (marker ≠ "None" ∧ linestyle = "None" → classify marker linestyle = "s") ∧
    (marker ≠ "None" ∧ linestyle ≠ "None" → classify marker linestyle = "y") ∧
    (classify marker linestyle = "l" ∨ classify marker linestyle = "s" ∨
      classify marker linestyle = "y") := by
  unfold classify
  by_cases hm : marker = "None" <;> by_cases hl : linestyle = "None" <;>
    simp [hm, hl]

/-- C1 counterexample: the matplotlib point marker "." is not in
mpl_sym_conv; in the line-plus-symbol branch the table is indexed
directly, so the lookup raises KeyError (none) instead of yielding the
default code 0, while the symbol-only branch does default to 0. -/
theorem symbol_lookup_counterexample :
    symbolCodeLineSymbol "." = none ∧ symbolCodeLineSymbol "." ≠ some "0" ∧
      symbolCodeSymbolOnly "." = "0" := by
  refine ⟨by decide, by decide, by decide⟩

/-- C1 amended: for a marker code outside the recognized table, the
symbol-only branch of matplotlib_to_origin falls back to the default
symbol code 0, but the line-plus-symbol branch indexes mpl_sym_conv
directly and its lookup fails with KeyError rather than defaulting. -/
theorem symbol_lookup_unrecognized (marker : String)
    (h : mpl_sym_conv.find? (fun p => p.1 = marker) = none) :
    symbolCodeSymbolOnly marker = "0" ∧ symbolCodeLineSymbol marker = none := by
  unfold symbolCodeSymbolOnly symbolCodeLineSymbol dictGet dictItem
  rw [h]
  exact ⟨rfl, rfl⟩

/-- C1 amended, witness at the unrecognized marker ".". -/
theorem symbol_lookup_unrecognized_witness :
    symbolCodeSymbolOnly "." = "0" ∧ symbolCodeLineSymbol "." = none :=
  symbol_lookup_unrecognized "." (by decide)

/-- C3: within one matplotlib_to_origin call the assigned column indices are
strictly increasing in processing order (hence injective), starting from
next_idx = 0; a plain line consumes 2 consecutive indices, an error-bar
group 3; in particular a plain line followed by an error-bar group gets
columns [0, 1] and [2, 3, 4]. -/
theorem column_assignment_strictly_increasing (ks : List SeriesKind) :
    List.Pairwise (· < ·) ((assignCols 0 ks).flatten) ∧
    ((assignCols 0 ks).flatten).Nodup ∧
    assignCols 0 [SeriesKind.plain, SeriesKind.errorbar] = [[0, 1], [2, 3, 4]] := by
  have hpw : List.Pairwise (· < ·) ((assignCols 0 ks).flatten) := by
    rw [assignCols_flatten]
    have := List.pairwise_lt_range' 0 (totalCols ks) 1 (by norm_num)
    simpa using this
  exact ⟨hpw, hpw.nodup, by decide⟩

/-- C4: the y-error magnitude matplotlib_to_origin writes is elementwise half
the difference between the upper and lower cap y-values; in particular
lower caps [1, 2, 3] and upper caps [3, 4, 5] give magnitudes [1, 1, 1]. -/
theorem yerr_half_cap_difference :
    (∀ (l u : List ℚ) (i : Nat),
      (yerrData l u)[i]? =
        (l[i]?).bind (fun a => (u[i]?).map (fun b => (b - a) / 2))) ∧
    yerrData [1, 2, 3] [3, 4, 5] = [1, 1, 1] := by
  constructor
  · intro l u i
    induction l generalizing u i with
    | nil => simp [yerrData]
    | cons a l ih =>
      cases u with
      | nil => simp [yerrData]
      | cons b u =>
        cases i with
        | zero => simp [yerrData]
        | succ i =>
          have := ih u i
          simpa [yerrData] using this
  · show List.zipWith _ _ _ = _
    norm_num [List.zipWith]

theorem mem_metaPart {w : WriteCall} {mk : Nat → String → WriteCall}
    {vals : Option (List String)} {col : Nat}
    (hw : w ∈ metaPart mk vals col) : ∃ v, w = mk col v := by
  cases vals with
  | none => simp [metaPart] at hw
  | some vs =>
    simp only [metaPart] at hw
    by_cases hc : col < vs.length
    · rw [if_pos hc] at hw
      simp at hw
      exact ⟨_, hw⟩
    · rw [if_neg hc] at hw
      simp at hw

theorem mem_metaStep {w : WriteCall} {lns us cs : Option (List String)} {col : Nat}
    (hw : w ∈ metaStep lns us cs col) :
    (∃ v, w = WriteCall.setLongName col v) ∨ (∃ v, w = WriteCall.setUnits col v) ∨
      (∃ v, w = WriteCall.setComments col v) := by
  unfold metaStep at hw
  rcases List.mem_append.1 hw with h1 | h2
  · rcases List.mem_append.1 h1 with h3 | h4
    · exact Or.inl (mem_metaPart h3)
    · exact Or.inr (Or.inl (mem_metaPart h4))
  · exact Or.inr (Or.inr (mem_metaPart h2))

theorem mem_userWrites {w : WriteCall} {ud : Option (List (String × String))}
    (hw : w ∈ userWrites ud) :
    (∃ i k v, w = WriteCall.userParam i k v) ∨ w = WriteCall.setColWidth := by
  unfold userWrites at hw
  cases ud with
  | none => simp at hw
  | some ps =>
    rcases List.mem_append.1 hw with h1 | h2
    · rcases List.mem_map.1 h1 with ⟨q, _, hq⟩
      exact Or.inl ⟨_, _, _, hq.symm⟩
    · simp at h2
      exact Or.inr h2

theorem colLoop_ndim_gt_two (data_array : NdArray) (column_axis : Nat)
    (lns us cs : Option (List String)) (h2 : 2 < data_array.ndim) (rem : Nat) :
    ∀ col : Nat,
    (∀ c d, WriteCall.putWorksheet c d ∉
      (colLoop data_array column_axis none lns us cs col rem).1) ∧
    (colLoop data_array column_axis none lns us cs col rem).2.1 =
      List.replicate rem "only 1 and 2 dimensional arrays supported" ∧
    (colLoop data_array column_axis none lns us cs col rem).2.2 = none := by
  induction rem with
  | zero =>
    intro col
    refine ⟨?_, rfl, rfl⟩
    intro c d hd
    simp [colLoop] at hd
  | succ m ih =>
    intro col
    obtain ⟨ihp, ihm, ihe⟩ := ih (col + 1)
    have hdata : dataStep data_array column_axis col =
        ([], ["only 1 and 2 dimensional arrays supported"]) := by
      have hne2 : ¬ data_array.ndim = 2 := by omega
      have hne1 : ¬ data_array.ndim = 1 := by omega
      simp [dataStep, hne2, hne1]
    refine ⟨?_, ?_, ?_⟩
    · intro c d hd
      simp only [colLoop, typeStep, hdata, List.append_nil, List.nil_append,
        List.mem_append] at hd
      rcases hd with hd | hd
      · rcases mem_metaStep hd with ⟨v, hv⟩ | ⟨v, hv⟩ | ⟨v, hv⟩ <;> simp at hv
      · exact ihp c d hd
    · simp only [colLoop, typeStep, hdata]
      simp [ihm, List.replicate_succ]
    · simp only [colLoop, typeStep, hdata]
      simpa using ihe

/-- C6 counterexample: for a 3-dimensional input array, numpy_to_origin does
not perform zero write calls: it still creates the workbook, renames the
sheet and sets its column count, while printing the unsupported message
once per column. -/
theorem unsupported_ndim_counterexample :
    (numpy_to_origin [] "Book" "Sheet" ⟨3, [2, 2, 2], [], []⟩ 0
        none none none none none).writes =
      [WriteCall.createPage "Book", WriteCall.setSheetName "Sheet",
        WriteCall.setCols 2] ∧
    (numpy_to_origin [] "Book" "Sheet" ⟨3, [2, 2, 2], [], []⟩ 0
        none none none none none).writes ≠ [] ∧
    (numpy_to_origin [] "Book" "Sheet" ⟨3, [2, 2, 2], [], []⟩ 0
        none none none none none).msgs =
      ["only 1 and 2 dimensional arrays supported",
       "only 1 and 2 dimensional arrays supported"] := by
  refine ⟨by decide, by decide, by decide⟩

/-- C6 amended: for an input array with more than 2 dimensions,
numpy_to_origin performs no data writes (no PutWorksheet call) and prints
the unsupported-dimensionality message once per column, but it still
creates or extends the workbook, renames the sheet, sets its column
count, and performs any per-column metadata writes. -/
theorem unsupported_ndim_behavior (books : List (String × Nat)) (bn wn : String)
    (data_array : NdArray) (column_axis : Nat)
    (lns us cs : Option (List String)) (ud : Option (List (String × String)))
    (h2 : 2 < data_array.ndim) :
    (∀ c d, WriteCall.putWorksheet c d ∉
      (numpy_to_origin books bn wn data_array column_axis
        none lns us cs ud).writes) ∧
    (numpy_to_origin books bn wn data_array column_axis none lns us cs ud).msgs =
      List.replicate (ncols data_array column_axis)
        "only 1 and 2 dimensional arrays supported" ∧
    WriteCall.setCols (ncols data_array column_axis) ∈
      (numpy_to_origin books bn wn data_array column_axis
        none lns us cs ud).writes := by
  obtain ⟨hp, hm, he⟩ :=
    colLoop_ndim_gt_two data_array column_axis lns us cs h2
      (ncols data_array column_axis) 0
  cases hb : books.find? (fun b => b.1 = bn) with
  | none =>
    refine ⟨?_, ?_, ?_⟩
    · intro c d hd
      simp only [numpy_to_origin, hb, he, List.mem_cons, List.mem_append] at hd
      rcases hd with hd | hd | hd | hd | hd
      · simp at hd
      · simp at hd
      · simp at hd
      · exact hp c d hd
      · rcases mem_userWrites hd with ⟨i, k, v, hv⟩ | hv <;> simp at hv
    · simp only [numpy_to_origin, hb]
      exact hm
    · simp [numpy_to_origin, hb]
  | some b =>
    refine ⟨?_, ?_, ?_⟩
    · intro c d hd
      simp only [numpy_to_origin, hb, he, List.mem_cons, List.mem_append] at hd
      rcases hd with hd | hd | hd | hd | hd
      · simp at hd
      · simp at hd
      · simp at hd
      · exact hp c d hd
      · rcases mem_userWrites hd with ⟨i, k, v, hv⟩ | hv <;> simp at hv
    · simp only [numpy_to_origin, hb]
      exact hm
    · simp [numpy_to_origin, hb]

/-- C6 amended, witness: a 3-D array of shape (2, 2, 2) sent to a fresh
workbook. -/
theorem unsupported_ndim_behavior_witness :
    (∀ c d, WriteCall.putWorksheet c d ∉
      (numpy_to_origin [] "Book" "Sheet" ⟨3, [2, 2, 2], [], []⟩ 0
        none none none none none).writes) ∧
    (numpy_to_origin [] "Book" "Sheet" ⟨3, [2, 2, 2], [], []⟩ 0
        none none none none none).msgs =
      List.replicate (ncols ⟨3, [2, 2, 2], [], []⟩ 0)
        "only 1 and 2 dimensional arrays supported" ∧
    WriteCall.setCols (ncols ⟨3, [2, 2, 2], [], []⟩ 0) ∈
      (numpy_to_origin [] "Book" "Sheet" ⟨3, [2, 2, 2], [], []⟩ 0
        none none none none none).writes :=
  unsupported_ndim_behavior [] "Book" "Sheet" ⟨3, [2, 2, 2], [], []⟩ 0
    none none none none (by decide)

/-- C5: the semantic-type lookup of numpy_to_origin lowercases the string and
maps it through the fixed table; a string outside the vocabulary fails
the lookup (KeyError), performs no column-type write for that column, and
the error propagates uncaught out of the call, aborting it. -/
theorem unrecognized_type_raises (s : String)
    (h : type_str_to_int.find? (fun p => p.1 = pyLower s) = none) :
    lookupColType s = none ∧
    (∀ (ts : List String) (col : Nat), col < ts.length → ts.getD col "" = s →
      typeStep (some ts) col = ([], some ("KeyError: " ++ pyLower s))) ∧
    (∀ (rest : List String) (books : List (String × Nat)) (bn wn : String)
        (data_array : NdArray) (column_axis : Nat)
        (lns us cs : Option (List String)) (ud : Option (List (String × String))),
      0 < ncols data_array column_axis →
      (numpy_to_origin books bn wn data_array column_axis (some (s :: rest))
          lns us cs ud).err = some ("KeyError: " ++ pyLower s) ∧
      (∀ c t, WriteCall.setColType c t ∉
        (numpy_to_origin books bn wn data_array column_axis (some (s :: rest))
          lns us cs ud).writes)) := by
  have hlk : lookupColType s = none := by
    unfold lookupColType
    rw [h]
    rfl
  refine ⟨hlk, ?_, ?_⟩
  · intro ts col hc he
    simp only [typeStep]
    rw [if_pos hc, he, hlk]
  · intro rest books bn wn arr ca lns us cs ud hn
    have hts : typeStep (some (s :: rest)) 0 =
        ([], some ("KeyError: " ++ pyLower s)) := by
      simp only [typeStep]
      rw [if_pos (by simp), show (s :: rest).getD 0 "" = s from rfl, hlk]
    obtain ⟨m, hm⟩ : ∃ m, ncols arr ca = m + 1 := ⟨ncols arr ca - 1, by omega⟩
    have hloop : colLoop arr ca (some (s :: rest)) lns us cs 0 (ncols arr ca) =
        (metaStep lns us cs 0, [], some ("KeyError: " ++ pyLower s)) := by
      rw [hm]
      simp only [colLoop, hts]
      simp
    cases hb : books.find? (fun b => b.1 = bn) with
    | none =>
      refine ⟨?_, ?_⟩
      · simp [numpy_to_origin, hb, hloop]
      · intro c t hd
        simp only [numpy_to_origin, hb, hloop, List.mem_cons, List.mem_append,
          List.not_mem_nil] at hd
        rcases hd with hd | hd | hd | hd
        · simp at hd
        · simp at hd
        · simp at hd
        · rcases hd with hd | hd
          · rcases mem_metaStep hd with ⟨v, hv⟩ | ⟨v, hv⟩ | ⟨v, hv⟩ <;> simp at hv
          · exact hd
    | some b =>
      refine ⟨?_, ?_⟩
      · simp [numpy_to_origin, hb, hloop]
      · intro c t hd
        simp only [numpy_to_origin, hb, hloop, List.mem_cons, List.mem_append,
          List.not_mem_nil] at hd
        rcases hd with hd | hd | hd | hd
        · simp at hd
        · simp at hd
        · simp at hd
        · rcases hd with hd | hd
          · rcases mem_metaStep hd with ⟨v, hv⟩ | ⟨v, hv⟩ | ⟨v, hv⟩ <;> simp at hv
          · exact hd

/-- C5, witness at the unrecognized type string "foo". -/
theorem unrecognized_type_raises_witness :
    lookupColType "foo" = none ∧
    (∀ (ts : List String) (col : Nat), col < ts.length → ts.getD col "" = "foo" →
      typeStep (some ts) col = ([], some ("KeyError: " ++ pyLower "foo"))) ∧
    (∀ (rest : List String) (books : List (String × Nat)) (bn wn : String)
        (data_array : NdArray) (column_axis : Nat)
        (lns us cs : Option (List String)) (ud : Option (List (String × String))),
      0 < ncols data_array column_axis →
      (numpy_to_origin books bn wn data_array column_axis (some ("foo" :: rest))
          lns us cs ud).err = some ("KeyError: " ++ pyLower "foo") ∧
      (∀ c t, WriteCall.setColType c t ∉
        (numpy_to_origin books bn wn data_array column_axis (some ("foo" :: rest))
          lns us cs ud).writes)) :=
  unrecognized_type_raises "foo" (by decide)

theorem find?_append_one (books : List (String × Nat)) (bn : String)
    (v : String × Nat) (h : books.find? (fun b => b.1 = bn) = none)
    (hv : v.1 = bn) :
    (books ++ [v]).find? (fun b => b.1 = bn) = some v := by
  induction books with
  | nil => simp [List.find?, hv]
  | cons b bs ih =>
    by_cases hb2 : b.1 = bn
    · simp [List.find?_cons, hb2] at h
    · simp only [List.cons_append, List.find?_cons, hb2, decide_False] at h ⊢
      exact ih h

theorem map_incr_of_find?_none (books : List (String × Nat)) (bn : String)
    (h : books.find? (fun b => b.1 = bn) = none) :
    books.map (fun p => if p.1 = bn then (p.1, p.2 + 1) else p) = books := by
  induction books with
  | nil => rfl
  | cons b bs ih =>
    by_cases hb2 : b.1 = bn
    · simp [List.find?_cons, hb2] at h
    · simp only [List.find?_cons, hb2, decide_False] at h
      simp only [List.map_cons, if_neg hb2, ih h]

theorem numpy_new_book (books : List (String × Nat)) (bn wn : String)
    (data_array : NdArray) (ca : Nat) (types lns us cs : Option (List String))
    (ud : Option (List (String × String)))
    (h : books.find? (fun b => b.1 = bn) = none) :
    (numpy_to_origin books bn wn data_array ca types lns us cs ud).books =
      books ++ [(bn, 1)] ∧
    (numpy_to_origin books bn wn data_array ca types lns us cs ud).layer_idx = 0 := by
  constructor <;> simp [numpy_to_origin, h]

theorem numpy_existing_book (books : List (String × Nat)) (bn wn : String)
    (data_array : NdArray) (ca : Nat) (types lns us cs : Option (List String))
    (ud : Option (List (String × String))) (b : String × Nat)
    (h : books.find? (fun p => p.1 = bn) = some b) :
    (numpy_to_origin books bn wn data_array ca types lns us cs ud).books =
      books.map (fun p => if p.1 = bn then (p.1, p.2 + 1) else p) ∧
    (numpy_to_origin books bn wn data_array ca types lns us cs ud).layer_idx =
      b.2 := by
  constructor <;> simp [numpy_to_origin, h]

/-- C7: calling numpy_to_origin with a workbook name that does not exist
creates the workbook and writes into its first sheet (layer index 0);
calling it again with the same name appends a new sheet and writes into
the last layer (index 1), leaving the first sheet in place. -/
theorem workbook_reuse_appends_sheet (books : List (String × Nat))
    (bn wn1 wn2 : String) (data_array : NdArray) (ca : Nat)
    (h : books.find? (fun b => b.1 = bn) = none) :
    (numpy_to_origin books bn wn1 data_array ca none none none none none).layer_idx
      = 0 ∧
    (numpy_to_origin books bn wn1 data_array ca none none none none none).books.find?
      (fun b => b.1 = bn) = some (bn, 1) ∧
    (numpy_to_origin
      (numpy_to_origin books bn wn1 data_array ca none none none none none).books
      bn wn2 data_array ca none none none none none).layer_idx = 1 ∧
    (numpy_to_origin
      (numpy_to_origin books bn wn1 data_array ca none none none none none).books
      bn wn2 data_array ca none none none none none).books.find?
      (fun b => b.1 = bn) = some (bn, 2) := by
  obtain ⟨hb1, hl1⟩ :=
    numpy_new_book books bn wn1 data_array ca none none none none none h
  have hf1 : (numpy_to_origin books bn wn1 data_array ca
      none none none none none).books.find? (fun b => b.1 = bn) = some (bn, 1) := by
    rw [hb1]
    exact find?_append_one books bn (bn, 1) h rfl
  obtain ⟨hb2, hl2⟩ :=
    numpy_existing_book _ bn wn2 data_array ca none none none none none (bn, 1) hf1
  have hbooks2 : (numpy_to_origin
      (numpy_to_origin books bn wn1 data_array ca none none none none none).books
      bn wn2 data_array ca none none none none none).books = books ++ [(bn, 2)] := by
    rw [hb2, hb1, List.map_append, map_incr_of_find?_none books bn h]
    simp
  refine ⟨hl1, hf1, hl2, ?_⟩
  rw [hbooks2]
  exact find?_append_one books bn (bn, 2) h rfl

/-- C7, witness: a fresh session, workbook name Book, two calls. -/
theorem workbook_reuse_appends_sheet_witness :
    (numpy_to_origin [] "Book" "Sheet1" ⟨1, [1], [], [0]⟩ 0
      none none none none none).layer_idx = 0 ∧
    (numpy_to_origin [] "Book" "Sheet1" ⟨1, [1], [], [0]⟩ 0
      none none none none none).books.find?
      (fun b => b.1 = "Book") = some ("Book", 1) ∧
    (numpy_to_origin
      (numpy_to_origin [] "Book" "Sheet1" ⟨1, [1], [], [0]⟩ 0
        none none none none none).books
      "Book" "Sheet2" ⟨1, [1], [], [0]⟩ 0 none none none none none).layer_idx = 1 ∧
    (numpy_to_origin
      (numpy_to_origin [] "Book" "Sheet1" ⟨1, [1], [], [0]⟩ 0
        none none none none none).books
      "Book" "Sheet2" ⟨1, [1], [], [0]⟩ 0 none none none none none).books.find?
      (fun b => b.1 = "Book") = some ("Book", 2) :=
  workbook_reuse_appends_sheet [] "Book" "Sheet1" "Sheet2" ⟨1, [1], [], [0]⟩ 0 rfl

theorem columnLoop_append (W : Nat) (l1 l2 : List (Nat × Nat × String)) :
    ∀ (ci : Nat) (st : GraphLayerState),
    columnLoop W ci (l1 ++ l2) st =
      columnLoop W (ci + l1.length) l2 (columnLoop W ci l1 st) := by
  induction l1 with
  | nil => intro ci st; simp [columnLoop]
  | cons c rest ih =>
    intro ci st
    simp only [List.cons_append, columnLoop, List.append_eq]
    rw [ih]
    congr 1
    simp only [List.length_cons]
    omega

theorem columnLoop_plots_length (W : Nat) (l : List (Nat × Nat × String)) :
    ∀ (ci : Nat) (st : GraphLayerState),
    (columnLoop W ci l st).plots.length = st.plots.length + W * l.length := by
  induction l with
  | nil => intro ci st; simp [columnLoop]
  | cons c rest ih =>
    intro ci st
    simp only [columnLoop]
    rw [ih]
    simp only [addColumnPlots, List.length_append, List.length_map,
      List.length_range, List.length_cons]
    ring

theorem columnLoop_group_length (W : Nat) (l : List (Nat × Nat × String)) :
    ∀ (ci : Nat) (st : GraphLayerState),
    (columnLoop W ci l st).groupCmds.length = st.groupCmds.length + l.length := by
  induction l with
  | nil => intro ci st; simp [columnLoop]
  | cons c rest ih =>
    intro ci st
    simp only [columnLoop]
    rw [ih]
    simp only [addColumnPlots, List.length_append, List.length_cons,
      List.length_nil]
    omega

/-- C8 counterexample: against an existing destination graph whose layer
already holds one plot, the single plot added for column choice 0 sits
at 1-based layer index 2 (the layer then holds 2 plots), but the
grouping command issued is layer -g 1 1, not the contiguous range (2, 2)
of the plots just added. -/
theorem grouping_counterexample :
    (columnLoop 1 0 [(0, 1, "Line")] ⟨[⟨0, 0, 1, 200⟩], []⟩).groupCmds =
      [(1, 1)] ∧
    (columnLoop 1 0 [(0, 1, "Line")] ⟨[⟨0, 0, 1, 200⟩], []⟩).plots.length = 2 ∧
    ((1, 1) : Nat × Nat) ≠ (2, 2) := by
  refine ⟨by decide, by decide, by decide⟩

/-- C8 amended: when the destination graph layer holds no plots before the
call (a graph newly created from the template, or an existing empty
one), each column choice adds one plot per worksheet and then issues a
single grouping command whose 1-based plot-index range is exactly the
contiguous block of plots just added for that column; with pre-existing
plots the issued range is shifted away from the just-added block. -/
theorem grouping_matches_added_range (W : Nat)
    (cols : List (Nat × Nat × String)) :
    (columnLoop W 0 cols ⟨[], []⟩).groupCmds.length = cols.length ∧
    (columnLoop W 0 cols ⟨[], []⟩).plots.length = W * cols.length ∧
    (∀ ci, ci < cols.length →
      (columnLoop W 0 (cols.take (ci + 1)) ⟨[], []⟩).plots =
        (columnLoop W 0 (cols.take ci) ⟨[], []⟩).plots ++
          (List.range W).map (fun wi =>
            ⟨wi, (cols.getD ci (0, 0, "")).1, (cols.getD ci (0, 0, "")).2.1,
              lineOrSymCode (cols.getD ci (0, 0, "")).2.2⟩) ∧
      (columnLoop W 0 (cols.take (ci + 1)) ⟨[], []⟩).groupCmds =
        (columnLoop W 0 (cols.take ci) ⟨[], []⟩).groupCmds ++
          [((columnLoop W 0 (cols.take ci) ⟨[], []⟩).plots.length + 1,
            (columnLoop W 0 (cols.take ci) ⟨[], []⟩).plots.length + W)]) := by
  refine ⟨by simpa using columnLoop_group_length W cols 0 ⟨[], []⟩,
    by simpa using columnLoop_plots_length W cols 0 ⟨[], []⟩, ?_⟩
  intro ci hci
  obtain ⟨c, hc⟩ : ∃ c, cols[ci]? = some c := ⟨cols[ci], List.getElem?_eq_getElem hci⟩
  have htake : cols.take (ci + 1) = cols.take ci ++ [c] := by
    rw [List.take_succ, hc]
    rfl
  have hlen : (cols.take ci).length = ci := by
    rw [List.length_take]
    omega
  have hgetD : cols.getD ci (0, 0, "") = c := by
    rw [List.getD_eq_getElem?_getD, hc]
    rfl
  have hplots1 : (columnLoop W 0 (cols.take ci) ⟨[], []⟩).plots.length = W * ci := by
    rw [columnLoop_plots_length W (cols.take ci) 0 ⟨[], []⟩, hlen]
    simp
  rw [htake, columnLoop_append W (cols.take ci) [c] 0 ⟨[], []⟩, hlen]
  constructor
  · simp only [columnLoop, addColumnPlots, Nat.zero_add, hgetD]
  · simp only [columnLoop, addColumnPlots, Nat.zero_add]
    rw [hplots1]
    have h1 : ci * W + 1 = W * ci + 1 := by ring
    have h2 : ∀ t : Nat, t + 1 + W - 1 = t + W := fun t => by omega
    rw [h1, h2 (W * ci)]

theorem mem_set_axis_scale {e : GraphEffect} {a : String} {o : Option String}
    (he : e ∈ set_axis_scale a o) :
    (∃ c, e = GraphEffect.axisType a c) ∨
      (∃ c, e = GraphEffect.axisNumFormat a c) := by
  cases o with
  | none => simp [set_axis_scale] at he
  | some s =>
    simp only [set_axis_scale] at he
    split_ifs at he
    · simp only [List.mem_cons, List.mem_singleton, List.not_mem_nil,
        or_false] at he
      rcases he with he | he
      · exact Or.inl ⟨0, he⟩
      · exact Or.inr ⟨1, he⟩
    · simp only [List.mem_cons, List.mem_singleton, List.not_mem_nil,
        or_false] at he
      rcases he with he | he
      · exact Or.inl ⟨2, he⟩
      · exact Or.inr ⟨2, he⟩
    · simp at he

theorem mem_labelCmd {e : GraphEffect} {a : String} {o : Option String}
    (he : e ∈ labelCmd a o) : ∃ s, e = GraphEffect.axisLabel a s := by
  cases o with
  | none => simp [labelCmd] at he
  | some s =>
    simp only [labelCmd, List.mem_singleton] at he
    exact ⟨s, he⟩

theorem mem_post_commands {e : GraphEffect} {xs ys xl yl : Option String}
    {ar : Bool}
    (he : e ∈ [GraphEffect.legendCmd] ++ set_axis_scale "x" xs ++
      set_axis_scale "y" ys ++ labelCmd "x" xl ++ labelCmd "y" yl ++
      (if ar then [GraphEffect.rescaleCmd] else [])) :
    e = GraphEffect.legendCmd ∨ (∃ a c, e = GraphEffect.axisType a c) ∨
      (∃ a c, e = GraphEffect.axisNumFormat a c) ∨
      (∃ a s, e = GraphEffect.axisLabel a s) ∨
      e = GraphEffect.rescaleCmd := by
  simp only [List.mem_append, List.mem_singleton] at he
  rcases he with ((((he | he) | he) | he) | he) | he
  · exact Or.inl he
  · rcases mem_set_axis_scale he with ⟨c, hc⟩ | ⟨c, hc⟩
    · exact Or.inr (Or.inl ⟨_, _, hc⟩)
    · exact Or.inr (Or.inr (Or.inl ⟨_, _, hc⟩))
  · rcases mem_set_axis_scale he with ⟨c, hc⟩ | ⟨c, hc⟩
    · exact Or.inr (Or.inl ⟨_, _, hc⟩)
    · exact Or.inr (Or.inr (Or.inl ⟨_, _, hc⟩))
  · obtain ⟨s2, hs⟩ := mem_labelCmd he
    exact Or.inr (Or.inr (Or.inr (Or.inl ⟨_, _, hs⟩)))
  · obtain ⟨s2, hs⟩ := mem_labelCmd he
    exact Or.inr (Or.inr (Or.inr (Or.inl ⟨_, _, hs⟩)))
  · revert he
    cases ar with
    | false => intro he; simp at he
    | true =>
      intro he
      simp only [if_true, List.mem_singleton] at he
      exact Or.inr (Or.inr (Or.inr (Or.inr he)))

/-- C10: whenever createGraph_multiwks is called with a non-None figsize, it
raises NameError at the final page-resize step (the name graph_page is
bound nowhere in the function) and never returns normally; the error
comes after all plots, grouping commands, the legend rebuild, the axis
scales and labels and the optional rescale have been applied, and before
any page resize. -/
theorem figsize_raises_nameerror (gn : String) (init : GraphLayerState)
    (W : Nat) (cols : List (Nat × Nat × String)) (ar : Bool)
    (xs ys xl yl : Option String) (fs : ℚ × ℚ) :
    (createGraph_multiwks gn init W cols ar xs ys xl yl (some fs)).err =
      some "NameError: name graph_page is not defined" ∧
    (createGraph_multiwks gn init W cols ar xs ys xl yl (some fs)).ret = none ∧
    (createGraph_multiwks gn init W cols ar xs ys xl yl (some fs)).layer =
      (createGraph_multiwks gn init W cols ar xs ys xl yl none).layer ∧
    (createGraph_multiwks gn init W cols ar xs ys xl yl (some fs)).post =
      (createGraph_multiwks gn init W cols ar xs ys xl yl none).post ∧
    (∀ w h, GraphEffect.setPageSize w h ∉
      (createGraph_multiwks gn init W cols ar xs ys xl yl (some fs)).post) := by
  refine ⟨rfl, rfl, rfl, rfl, ?_⟩
  intro w h hmem
  have hp : (createGraph_multiwks gn init W cols ar xs ys xl yl (some fs)).post =
      [GraphEffect.legendCmd] ++ set_axis_scale "x" xs ++
        set_axis_scale "y" ys ++ labelCmd "x" xl ++ labelCmd "y" yl ++
        (if ar then [GraphEffect.rescaleCmd] else []) := rfl
  rw [hp] at hmem
  rcases mem_post_commands hmem with hd | ⟨a, c, hd⟩ | ⟨a, c, hd⟩ | ⟨a, s2, hd⟩ | hd <;>
    simp at hd

/-- C9: passing a workbook name as a string to get_sheets_from_book raises
NameError — the string branch reads the undefined name workbook_name —
instead of returning that workbook's worksheets; a live workbook object
is resolved and its worksheets returned. -/
theorem get_sheets_from_book_string_nameerror :
    get_sheets_from_book [("Book1", ["Sheet1", "Sheet2"])]
      [WbRef.name "Book1"] =
      Except.error "NameError: name workbook_name is not defined" ∧
    get_sheets_from_book [("Book1", ["Sheet1", "Sheet2"])]
      [WbRef.obj ["Sheet1", "Sheet2"]] = Except.ok ["Sheet1", "Sheet2"] := by
  refine ⟨rfl, rfl⟩

end Py2Origin
